import Mathlib

/-!
# Verification of the Softsense / Sentimento engine

A shallow embedding of the Python sources `softsense.py` and
`sentimento_pulse_interface.py` of the Global-general-intelligence
repository, together with proofs of the specification's claims about them.

Modelling conventions:
* Python floats are modelled by `ℚ`.  All constants appearing in the source
  (0.5, 0.3, 0.15, …) are exactly representable, and every score is clamped
  to [0,1], so the rational model tracks the intent of the arithmetic.
* `str(input_data).lower()` is modelled by taking the input as a `String`
  (the string form of the Python value) and lowercasing its characters.
* Python's substring test `kw in s` is modelled by `hasKw`.
* Methods mutating `self` are modelled as functions from the prior state to
  the pair (returned value, new state) — or just the new state when nothing
  is returned.
* `print` calls produce console output only; they have no effect on any
  state or return value, so they have no counterpart in the model.
-/

namespace Softsense

/-- `max(0.0, min(1.0, x))` — the clamping idiom used throughout the source. -/
def clamp01 (x : ℚ) : ℚ := max 0 (min 1 x)

/-- Substring test on character lists: does `kw` occur contiguously in `s`? -/
def isSubstr (kw : List Char) : List Char → Bool
  | [] => kw.isEmpty
  | c :: rest => kw.isPrefixOf (c :: rest) || isSubstr kw rest

/-- Python's `kw in str(input).lower()`: `s` is the string form of the input,
lowercased character by character. -/
def hasKw (s kw : String) : Bool := isSubstr kw.toList (s.toList.map Char.toLower)

/-! ## SoftsenseCore (`softsense.py`, class `SoftsenseCore`) -/

/-- The harmonics metrics dictionary `{dignity, prosperity, respect, balance}`. -/
structure Harmonics where
  dignity : ℚ
  prosperity : ℚ
  respect : ℚ
  balance : ℚ
deriving DecidableEq, Repr

/-- Initial metrics of `SoftsenseCore.__init__` (all 1.0). -/
def initialMetrics : Harmonics := ⟨1, 1, 1, 1⟩

/-- `SoftsenseCore._calculate_harmonics`: keyword deltas applied to the
baseline 1.0 values, then clamping, then `balance = (d + p + r) / 3`.
The source mutates `dignity`/`respect` (resp. `dignity`/`prosperity`) together
under one `if`; here each field's update is written as its own `let` with the
same condition. -/
def calculate_harmonics (input : String) : Harmonics :=
  let dignity : ℚ := 1
  let prosperity : ℚ := 1
  let respect : ℚ := 1
  let dignity := if hasKw input "harm" || hasKw input "damage" then dignity - 3/10 else dignity
  let respect := if hasKw input "harm" || hasKw input "damage" then respect - 2/10 else respect
  let dignity := if hasKw input "exclude" || hasKw input "discriminate" then dignity - 4/10 else dignity
  let prosperity := if hasKw input "exclude" || hasKw input "discriminate" then prosperity - 3/10 else prosperity
  let respect := if hasKw input "disrespect" || hasKw input "violate" then respect - 5/10 else respect
  let dignity := if hasKw input "care" || hasKw input "love" then min 1 (dignity + 1/10) else dignity
  let respect := if hasKw input "care" || hasKw input "love" then min 1 (respect + 1/10) else respect
  let prosperity := if hasKw input "prosper" || hasKw input "flourish" then min 1 (prosperity + 1/10) else prosperity
  let dignity := clamp01 dignity
  let prosperity := clamp01 prosperity
  let respect := clamp01 respect
  ⟨dignity, prosperity, respect, (dignity + prosperity + respect) / 3⟩

/-- `SoftsenseCore._is_balanced`. -/
def is_balanced (balance_threshold : ℚ) (h : Harmonics) : Bool :=
  decide (h.balance ≥ balance_threshold) && decide (h.dignity ≥ balance_threshold) &&
  decide (h.prosperity ≥ balance_threshold) && decide (h.respect ≥ balance_threshold)

/-- `SoftsenseCore._auto_balance`: the body consists solely of `print`
statements; it performs no state change, so its effect on the harmonics is
the identity. -/
def auto_balance (_balance_threshold : ℚ) (h : Harmonics) : Harmonics := h

/-- Return value of `SoftsenseCore.sense`. -/
structure SenseResult where
  harmonics : Harmonics
  balanced : Bool
  warnings : List String
  recommendations : List String
deriving DecidableEq, Repr

/-- `SoftsenseCore.sense`: computes harmonics, collects warnings and
recommendations, optionally calls `_auto_balance` (a pure console effect),
stores the harmonics in `self.metrics` and returns the result dictionary.
The prior `self.metrics` is overwritten without being read. -/
def sense (balance_threshold : ℚ) (auto_balance_flag : Bool) (_metrics : Harmonics)
    (input : String) : SenseResult × Harmonics :=
  let harmonics := calculate_harmonics input
  let balanced := is_balanced balance_threshold harmonics
  let warnings :=
    (if harmonics.dignity < balance_threshold then ["Dignity levels below threshold"] else []) ++
    (if harmonics.prosperity < balance_threshold then ["Prosperity alignment below threshold"] else []) ++
    (if harmonics.respect < balance_threshold then ["Respect levels below threshold"] else [])
  let recommendations :=
    (if harmonics.dignity < balance_threshold then ["Increase dignity preservation in decision logic"] else []) ++
    (if harmonics.prosperity < balance_threshold then ["Enhance prosperity-aligned outcomes"] else []) ++
    (if harmonics.respect < balance_threshold then ["Strengthen respect protocols"] else [])
  let harmonics :=
    if auto_balance_flag && !balanced then auto_balance balance_threshold harmonics
    else harmonics
  (⟨harmonics, balanced, warnings, recommendations⟩, harmonics)

/-! ## LoveFirstAlgorithm (`softsense.py`, class `LoveFirstAlgorithm`) -/

/-- The care component of `LoveFirstAlgorithm._calculate_love_first_score`
(the `care_score` local variable, after normalization). -/
def care_score (input : String) : ℚ :=
  let score : ℚ := 1/2
  let score := if hasKw input "care" || hasKw input "compassion" || hasKw input "empathy" then score + 3/10 else score
  let score := if hasKw input "love" || hasKw input "kindness" then score + 2/10 else score
  let score := if hasKw input "harm" || hasKw input "neglect" then score - 4/10 else score
  clamp01 score

/-- The respect component of `LoveFirstAlgorithm._calculate_love_first_score`
(the `respect_score` local variable, after normalization). -/
def respect_score (input : String) : ℚ :=
  let score : ℚ := 1/2
  let score := if hasKw input "respect" || hasKw input "dignity" || hasKw input "honor" then score + 3/10 else score
  let score := if hasKw input "equal" || hasKw input "fair" then score + 2/10 else score
  let score := if hasKw input "disrespect" || hasKw input "violate" || hasKw input "discriminate" then score - 4/10 else score
  clamp01 score

/-- The flourishing component of `LoveFirstAlgorithm._calculate_love_first_score`
(the `flourishing_score` local variable, after normalization). -/
def flourishing_score (input : String) : ℚ :=
  let score : ℚ := 1/2
  let score := if hasKw input "flourish" || hasKw input "prosper" || hasKw input "thrive" then score + 3/10 else score
  let score := if hasKw input "growth" || hasKw input "wellbeing" || hasKw input "wellness" then score + 2/10 else score
  let score := if hasKw input "suppress" || hasKw input "restrict" || hasKw input "limit" then score - 3/10 else score
  clamp01 score

/-- `LoveFirstAlgorithm._calculate_love_first_score`: average of the three
normalized components, clamped. -/
def calculate_love_first_score (input : String) : ℚ :=
  clamp01 ((care_score input + respect_score input + flourishing_score input) / 3)

/-! ## YinYangBalance (`softsense.py`, class `YinYangBalance`) -/

/-- The `self.state` dictionary `{yin, yang, balance}`. -/
structure BalanceState where
  yin : ℚ
  yang : ℚ
  balance : ℚ
deriving DecidableEq, Repr

/-- Initial state of `YinYangBalance.__init__` and target of `reset`. -/
def initialBalanceState : BalanceState := ⟨1/2, 1/2, 1⟩

/-- Constructor arguments of `YinYangBalance.__init__` (defaults 0.3, True). -/
structure YinYangConfig where
  balance_threshold : ℚ := 3/10
  failsafe_enabled : Bool := true
deriving DecidableEq, Repr

/-- `YinYangBalance._calculate_yin_score`. -/
def calculate_yin_score (input : String) : ℚ :=
  let score : ℚ := 1/2
  let score := if hasKw input "listen" || hasKw input "receive" || hasKw input "accept" then score + 2/10 else score
  let score := if hasKw input "nurture" || hasKw input "care" || hasKw input "support" then score + 2/10 else score
  let score := if hasKw input "calm" || hasKw input "peace" || hasKw input "gentle" then score + 15/100 else score
  let score := if hasKw input "force" || hasKw input "demand" || hasKw input "dominate" then score - 3/10 else score
  clamp01 score

/-- `YinYangBalance._calculate_yang_score`. -/
def calculate_yang_score (input : String) : ℚ :=
  let score : ℚ := 1/2
  let score := if hasKw input "act" || hasKw input "do" || hasKw input "execute" then score + 2/10 else score
  let score := if hasKw input "lead" || hasKw input "direct" || hasKw input "decide" then score + 2/10 else score
  let score := if hasKw input "create" || hasKw input "build" || hasKw input "initiate" then score + 15/100 else score
  let score := if hasKw input "passive" || hasKw input "wait" || hasKw input "defer" then score - 3/10 else score
  clamp01 score

/-- `YinYangBalance._calculate_balance`: `1 - |yin - yang|`, clamped. -/
def calculate_balance (yin yang : ℚ) : ℚ := clamp01 (1 - |yin - yang|)

/-- `YinYangBalance._activate_failsafe` (`print`s aside): both axes are set to
their average and the balance is forced to 1.0. -/
def activate_failsafe (st : BalanceState) : BalanceState :=
  let avg := (st.yin + st.yang) / 2
  ⟨avg, avg, 1⟩

/-- Return value of `YinYangBalance.synchronize`. -/
structure SyncResult where
  resolved : Bool
  method : String
  balancedState : BalanceState
  failsafeActivated : Bool
  recommendations : List String
deriving DecidableEq, Repr

/-- `YinYangBalance.synchronize`: recomputes `self.state` wholesale from the
input (the prior state is overwritten without being read), branches on the
balance threshold and the fail-safe flag, then appends the advisory
recommendations based on the (possibly fail-safe-corrected) `self.state`.
Returns the result dictionary and the new `self.state`. -/
def synchronize (cfg : YinYangConfig) (_st : BalanceState) (input : String) :
    SyncResult × BalanceState :=
  let yin_score := calculate_yin_score input
  let yang_score := calculate_yang_score input
  let st1 : BalanceState := ⟨yin_score, yang_score, calculate_balance yin_score yang_score⟩
  let isBal : Bool := decide (st1.balance ≥ cfg.balance_threshold)
  let (method, failsafe_activated, st2, recs1) :=
    if isBal then
      ("HARMONIC_SYNC", false, st1, ([] : List String))
    else if cfg.failsafe_enabled then
      ("FAILSAFE_GATE", true, activate_failsafe st1,
        ["Fail-safe gate activated for emergency balancing"])
    else
      ("MANUAL_INTERVENTION_REQUIRED", false, st1,
        ["Manual intervention recommended for balance restoration"])
  let recs2 :=
    if st2.yin < 4/10 ∧ st2.yang > 6/10 then
      recs1 ++ ["Increase Yin (receptive, nurturing) elements",
        "Balance assertive actions with contemplative approaches"]
    else if st2.yang < 4/10 ∧ st2.yin > 6/10 then
      recs1 ++ ["Increase Yang (active, assertive) elements",
        "Balance nurturing with decisive action"]
    else recs1
  (⟨isBal || failsafe_activated, method, st2, failsafe_activated, recs2⟩, st2)

/-- `YinYangBalance.reset`: unconditional reset of `self.state`. -/
def reset (_st : BalanceState) : BalanceState := ⟨1/2, 1/2, 1⟩

/-! ## PolicyGate (`LoveFirstTrigger`)

The repository's stateful softsense module — the one exposing
`LoveFirstTrigger.evaluate_action` with the authorized/seedbringer escape
hatch and a harmful-keyword denylist — is exercised by `test_softsense.py`
and `demo_softsense.py` but its implementation file is not among the
sources; only its tests and callers are.  The gate is therefore modelled
from the specification. -/

/-- Modelled from the spec: the recognized flags of the dynamic `context`
mapping passed to `evaluate_action`; any flag missing from the mapping
defaults to false. -/
structure PGContext where
  authorized : Bool := false
  seedbringer : Bool := false
deriving DecidableEq, Repr

/-- Modelled from the spec: the fixed denylist of harmful-intent keywords
of `compassionCheck`.  The implementation is absent from the sources; the
keyword set is chosen to realize the black-box behavior fixed by the spec
and the repository's tests: `"read_data"` contains no denylisted keyword,
while `"delete_all_data"` (and the test suite's `"delete all data"`) does. -/
def harmful_keywords : List String := ["delete", "destroy", "harm", "attack", "exploit"]

/-- Modelled from the spec: `compassionCheck` returns true immediately if
`context.authorized` or `context.seedbringer` is set; otherwise true iff
the action contains none of the denylist keywords. -/
def compassion_check (action : String) (ctx : PGContext) : Bool :=
  if ctx.authorized || ctx.seedbringer then true
  else !(harmful_keywords.any (fun kw => hasKw action kw))

/-- Modelled from the spec: the `LoveFirstTrigger` gate state — a balance
score starting at 1.0 and a fail-safe threshold of 0.7 (values fixed by the
tests). -/
structure LoveFirstTrigger where
  balance_score : ℚ := 1
  fail_safe_threshold : ℚ := 7/10
deriving DecidableEq, Repr

/-- Modelled from the spec: `evaluate_action(action, context)` approves iff
the compassion check passes and the gate's balance score meets its
fail-safe threshold. -/
def evaluate_action (g : LoveFirstTrigger) (action : String) (ctx : PGContext) : Bool :=
  compassion_check action ctx && decide (g.balance_score ≥ g.fail_safe_threshold)

end Softsense

namespace Sentimento

/-! ## SentimentoPulseInterface (`sentimento_pulse_interface.py`) -/

/-- The event record built by `receive_pulse`.  `intensity` is
`float(intensity)` — the numeric value as given, with no clamping. -/
structure PulseEvent where
  timestamp : String
  emotion : String
  intensity : ℚ
  clarity : String
  note : String
deriving DecidableEq, Repr

/-- Contents of the per-day log file: pulse-key → event entries, in
insertion order. -/
abbrev LogStore := List (String × PulseEvent)

/-- `SentimentoPulseInterface.receive_pulse`: builds the event record, then
attempts to persist it into the per-day log file inside a `try`/`except`
that swallows every exception (printing a warning only), and returns the
event.  The model makes the nondeterministic environment explicit:
`ts` and `pulse_key` stand for the `datetime.utcnow()`-derived timestamp and
key, `day_log` for the current file contents, and `persist_fails` for
whether the file I/O inside the `try` block raises.  On failure the file is
left as it was and the event is still returned. -/
def receive_pulse (emotion : String) (intensity : ℚ) (clarity note : String)
    (ts pulse_key : String) (day_log : LogStore) (persist_fails : Bool) :
    PulseEvent × LogStore :=
  let event : PulseEvent := ⟨ts, emotion, intensity, clarity, note⟩
  if persist_fails then (event, day_log)
  else (event, day_log ++ [(pulse_key, event)])

end Sentimento

namespace Softsense

/-! ## Helper lemmas -/

theorem clamp01_nonneg (x : ℚ) : 0 ≤ clamp01 x := le_max_left 0 _

theorem clamp01_le_one (x : ℚ) : clamp01 x ≤ 1 :=
  max_le (by norm_num) (min_le_left 1 x)

theorem clamp01_eq_self {x : ℚ} (h0 : 0 ≤ x) (h1 : x ≤ 1) : clamp01 x = x := by
  unfold clamp01
  rw [min_eq_right h1, max_eq_right h0]

theorem avg3_nonneg {a b c : ℚ} (ha : 0 ≤ a) (hb : 0 ≤ b) (hc : 0 ≤ c) :
    0 ≤ (a + b + c) / 3 := by positivity

theorem avg3_le_one {a b c : ℚ} (ha : a ≤ 1) (hb : b ≤ 1) (hc : c ≤ 1) :
    (a + b + c) / 3 ≤ 1 := by
  rw [div_le_one (by norm_num)]
  linarith

theorem calculate_yin_score_mem (input : String) :
    0 ≤ calculate_yin_score input ∧ calculate_yin_score input ≤ 1 :=
  ⟨clamp01_nonneg _, clamp01_le_one _⟩

theorem calculate_yang_score_mem (input : String) :
    0 ≤ calculate_yang_score input ∧ calculate_yang_score input ≤ 1 :=
  ⟨clamp01_nonneg _, clamp01_le_one _⟩

/-- The state freshly computed by `synchronize` before any correction. -/
def computedState (input : String) : BalanceState :=
  ⟨calculate_yin_score input, calculate_yang_score input,
    calculate_balance (calculate_yin_score input) (calculate_yang_score input)⟩

/-- `synchronize` ends either with the freshly computed state or with the
fail-safe-corrected state. -/
theorem synchronize_state_cases (cfg : YinYangConfig) (st : BalanceState) (input : String) :
    (synchronize cfg st input).2 = computedState input ∨
    (synchronize cfg st input).2 = activate_failsafe (computedState input) := by
  unfold synchronize computedState
  by_cases h : calculate_balance (calculate_yin_score input) (calculate_yang_score input) ≥
      cfg.balance_threshold
  · left
    simp [h]
  · by_cases hf : cfg.failsafe_enabled
    · right
      simp [h, hf]
    · left
      simp [h, hf]

/-! ## Claims -/

/-- C1: for every input and every reachable state, every score and balance
value produced by the scoring and balancing operations — the yin score, the
yang score, the love-first score and its care/respect/flourishing
components, the dignity/prosperity/respect harmonics, and the balance —
lies within [0,1]. -/
theorem all_scores_in_unit_interval (input : String) (cfg : YinYangConfig) (st : BalanceState) :
    (0 ≤ (calculate_harmonics input).dignity ∧ (calculate_harmonics input).dignity ≤ 1) ∧
    (0 ≤ (calculate_harmonics input).prosperity ∧ (calculate_harmonics input).prosperity ≤ 1) ∧
    (0 ≤ (calculate_harmonics input).respect ∧ (calculate_harmonics input).respect ≤ 1) ∧
    (0 ≤ (calculate_harmonics input).balance ∧ (calculate_harmonics input).balance ≤ 1) ∧
    (0 ≤ care_score input ∧ care_score input ≤ 1) ∧
    (0 ≤ respect_score input ∧ respect_score input ≤ 1) ∧
    (0 ≤ flourishing_score input ∧ flourishing_score input ≤ 1) ∧
    (0 ≤ calculate_love_first_score input ∧ calculate_love_first_score input ≤ 1) ∧
    (0 ≤ calculate_yin_score input ∧ calculate_yin_score input ≤ 1) ∧
    (0 ≤ calculate_yang_score input ∧ calculate_yang_score input ≤ 1) ∧
    (0 ≤ calculate_balance (calculate_yin_score input) (calculate_yang_score input) ∧
      calculate_balance (calculate_yin_score input) (calculate_yang_score input) ≤ 1) ∧
    (0 ≤ ((synchronize cfg st input).2).yin ∧ ((synchronize cfg st input).2).yin ≤ 1) ∧
    (0 ≤ ((synchronize cfg st input).2).yang ∧ ((synchronize cfg st input).2).yang ≤ 1) ∧
    (0 ≤ ((synchronize cfg st input).2).balance ∧ ((synchronize cfg st input).2).balance ≤ 1) := by
  obtain ⟨hyin0, hyin1⟩ := calculate_yin_score_mem input
  obtain ⟨hyang0, hyang1⟩ := calculate_yang_score_mem input
  have hsync : (0 ≤ ((synchronize cfg st input).2).yin ∧ ((synchronize cfg st input).2).yin ≤ 1) ∧
      (0 ≤ ((synchronize cfg st input).2).yang ∧ ((synchronize cfg st input).2).yang ≤ 1) ∧
      (0 ≤ ((synchronize cfg st input).2).balance ∧ ((synchronize cfg st input).2).balance ≤ 1) := by
    rcases synchronize_state_cases cfg st input with h | h <;> rw [h]
    · exact ⟨⟨hyin0, hyin1⟩, ⟨hyang0, hyang1⟩, clamp01_nonneg _, clamp01_le_one _⟩
    · unfold activate_failsafe computedState
      refine ⟨⟨by positivity, ?_⟩, ⟨by positivity, ?_⟩, by norm_num⟩ <;>
        · show (calculate_yin_score input + calculate_yang_score input) / 2 ≤ 1
          linarith
  exact ⟨⟨clamp01_nonneg _, clamp01_le_one _⟩, ⟨clamp01_nonneg _, clamp01_le_one _⟩,
    ⟨clamp01_nonneg _, clamp01_le_one _⟩,
    ⟨avg3_nonneg (clamp01_nonneg _) (clamp01_nonneg _) (clamp01_nonneg _),
      avg3_le_one (clamp01_le_one _) (clamp01_le_one _) (clamp01_le_one _)⟩,
    ⟨clamp01_nonneg _, clamp01_le_one _⟩, ⟨clamp01_nonneg _, clamp01_le_one _⟩,
    ⟨clamp01_nonneg _, clamp01_le_one _⟩, ⟨clamp01_nonneg _, clamp01_le_one _⟩,
    ⟨hyin0, hyin1⟩, ⟨hyang0, hyang1⟩, ⟨clamp01_nonneg _, clamp01_le_one _⟩,
    hsync.1, hsync.2.1, hsync.2.2⟩

theorem synchronize_balancedState_eq (cfg : YinYangConfig) (st : BalanceState) (input : String) :
    (synchronize cfg st input).1.balancedState = (synchronize cfg st input).2 := by
  unfold synchronize
  by_cases h : calculate_balance (calculate_yin_score input) (calculate_yang_score input) ≥
      cfg.balance_threshold
  · simp [h]
  · by_cases hf : cfg.failsafe_enabled <;> simp [h, hf]

theorem calculate_balance_eq_of_mem {a b : ℚ} (ha0 : 0 ≤ a) (ha1 : a ≤ 1)
    (hb0 : 0 ≤ b) (hb1 : b ≤ 1) : calculate_balance a b = 1 - |a - b| := by
  unfold calculate_balance
  apply clamp01_eq_self
  · have h : |a - b| ≤ 1 := abs_sub_le_iff.mpr ⟨by linarith, by linarith⟩
    linarith
  · have h : 0 ≤ |a - b| := abs_nonneg _
    linarith

/-- C2: for every `synchronize` call, the balance value in the resulting
balance state equals 1 minus the absolute difference of that state's yin and
yang values; in particular, whenever yin = yang the balance is exactly 1.0. -/
theorem synchronize_balance_formula (cfg : YinYangConfig) (st : BalanceState) (input : String) :
    (synchronize cfg st input).1.balancedState = (synchronize cfg st input).2 ∧
    ((synchronize cfg st input).2).balance =
      1 - |((synchronize cfg st input).2).yin - ((synchronize cfg st input).2).yang| ∧
    (((synchronize cfg st input).2).yin = ((synchronize cfg st input).2).yang →
      ((synchronize cfg st input).2).balance = 1) := by
  have hmain : ((synchronize cfg st input).2).balance =
      1 - |((synchronize cfg st input).2).yin - ((synchronize cfg st input).2).yang| := by
    obtain ⟨hyin0, hyin1⟩ := calculate_yin_score_mem input
    obtain ⟨hyang0, hyang1⟩ := calculate_yang_score_mem input
    rcases synchronize_state_cases cfg st input with h | h <;> rw [h]
    · exact calculate_balance_eq_of_mem hyin0 hyin1 hyang0 hyang1
    · unfold activate_failsafe computedState
      simp
  exact ⟨synchronize_balancedState_eq cfg st input, hmain,
    fun h => by rw [hmain, h, sub_self, abs_zero, sub_zero]⟩

/-- Witness for C2 at a concrete call. -/
theorem synchronize_balance_formula_witness :
    (synchronize ⟨3/10, true⟩ initialBalanceState "peace").1.balancedState =
      (synchronize ⟨3/10, true⟩ initialBalanceState "peace").2 ∧
    ((synchronize ⟨3/10, true⟩ initialBalanceState "peace").2).balance =
      1 - |((synchronize ⟨3/10, true⟩ initialBalanceState "peace").2).yin -
        ((synchronize ⟨3/10, true⟩ initialBalanceState "peace").2).yang| ∧
    (((synchronize ⟨3/10, true⟩ initialBalanceState "peace").2).yin =
        ((synchronize ⟨3/10, true⟩ initialBalanceState "peace").2).yang →
      ((synchronize ⟨3/10, true⟩ initialBalanceState "peace").2).balance = 1) :=
  synchronize_balance_formula ⟨3/10, true⟩ initialBalanceState "peace"

/-- Concrete evaluation used by the witnesses: a yang-dominant,
yin-suppressing input. -/
theorem yin_score_eval : calculate_yin_score "force act lead create" = 1/5 := by
  simp +decide [calculate_yin_score]
  norm_num [clamp01]

theorem yang_score_eval : calculate_yang_score "force act lead create" = 1 := by
  simp +decide [calculate_yang_score]
  norm_num [clamp01]

theorem balance_eval :
    calculate_balance (calculate_yin_score "force act lead create")
      (calculate_yang_score "force act lead create") = 1/5 := by
  rw [yin_score_eval, yang_score_eval]
  rw [calculate_balance_eq_of_mem (by norm_num) (by norm_num) (by norm_num) (by norm_num)]
  rw [abs_of_nonpos (by norm_num)]
  norm_num

/-- C4: for every `synchronize` call whose computed balance falls below the
balance threshold while fail-safe is enabled, the call ends in the FAILSAFE
state with method tag `FAILSAFE_GATE` and `failsafeActivated = true`: both
yin and yang are reset to their average and the stored and reported balance
is forced to exactly 1.0. -/
theorem synchronize_failsafe_branch (cfg : YinYangConfig) (st : BalanceState) (input : String)
    (hfs : cfg.failsafe_enabled = true)
    (hlow : calculate_balance (calculate_yin_score input) (calculate_yang_score input) <
      cfg.balance_threshold) :
    ((synchronize cfg st input).1).method = "FAILSAFE_GATE" ∧
    ((synchronize cfg st input).1).failsafeActivated = true ∧
    ((synchronize cfg st input).2).yin =
      (calculate_yin_score input + calculate_yang_score input) / 2 ∧
    ((synchronize cfg st input).2).yang =
      (calculate_yin_score input + calculate_yang_score input) / 2 ∧
    ((synchronize cfg st input).2).balance = 1 ∧
    (synchronize cfg st input).1.balancedState = (synchronize cfg st input).2 := by
  have h : ¬ (calculate_balance (calculate_yin_score input) (calculate_yang_score input) ≥
      cfg.balance_threshold) := not_le.mpr hlow
  unfold synchronize
  simp [h, hfs, activate_failsafe]

/-- Witness for C4 at a concrete call (default configuration). -/
theorem synchronize_failsafe_branch_witness :
    ((synchronize ⟨3/10, true⟩ initialBalanceState "force act lead create").1).method =
      "FAILSAFE_GATE" ∧
    ((synchronize ⟨3/10, true⟩ initialBalanceState "force act lead create").1).failsafeActivated =
      true ∧
    ((synchronize ⟨3/10, true⟩ initialBalanceState "force act lead create").2).yin =
      (calculate_yin_score "force act lead create" +
        calculate_yang_score "force act lead create") / 2 ∧
    ((synchronize ⟨3/10, true⟩ initialBalanceState "force act lead create").2).yang =
      (calculate_yin_score "force act lead create" +
        calculate_yang_score "force act lead create") / 2 ∧
    ((synchronize ⟨3/10, true⟩ initialBalanceState "force act lead create").2).balance = 1 ∧
    (synchronize ⟨3/10, true⟩ initialBalanceState "force act lead create").1.balancedState =
      (synchronize ⟨3/10, true⟩ initialBalanceState "force act lead create").2 :=
  synchronize_failsafe_branch ⟨3/10, true⟩ initialBalanceState "force act lead create" rfl
    (by rw [balance_eval]; norm_num)

/-- C5: for every `synchronize` call whose computed balance falls below the
threshold while fail-safe is disabled, the method tag is
`MANUAL_INTERVENTION_REQUIRED`, no correction is applied (the state keeps
the freshly computed yin, yang and balance), and the result's `resolved`
flag is false; in every `synchronize` result, `resolved` is true iff the
ending state is not the imbalanced one (tagged `MANUAL_INTERVENTION_REQUIRED`). -/
theorem synchronize_manual_intervention (cfg : YinYangConfig) (st : BalanceState) (input : String)
    (hfs : cfg.failsafe_enabled = false)
    (hlow : calculate_balance (calculate_yin_score input) (calculate_yang_score input) <
      cfg.balance_threshold) :
    ((synchronize cfg st input).1).method = "MANUAL_INTERVENTION_REQUIRED" ∧
    (synchronize cfg st input).2 = computedState input ∧
    ((synchronize cfg st input).1).resolved = false ∧
    (∀ (cfg2 : YinYangConfig) (st2 : BalanceState) (input2 : String),
      ((synchronize cfg2 st2 input2).1).resolved = true ↔
        ((synchronize cfg2 st2 input2).1).method ≠ "MANUAL_INTERVENTION_REQUIRED") := by
  have h : ¬ (calculate_balance (calculate_yin_score input) (calculate_yang_score input) ≥
      cfg.balance_threshold) := not_le.mpr hlow
  refine ⟨?_, ?_, ?_, ?_⟩
  · unfold synchronize
    simp [h, hfs]
  · unfold synchronize computedState
    simp [h, hfs]
  · unfold synchronize
    simp [h, hfs]
  · intro cfg2 st2 input2
    unfold synchronize
    by_cases h2 : calculate_balance (calculate_yin_score input2) (calculate_yang_score input2) ≥
        cfg2.balance_threshold
    · simp [h2]
    · by_cases hf2 : cfg2.failsafe_enabled <;> simp [h2, hf2]

/-- Witness for C5 at a concrete call (fail-safe disabled). -/
theorem synchronize_manual_intervention_witness :
    ((synchronize ⟨3/10, false⟩ initialBalanceState "force act lead create").1).method =
      "MANUAL_INTERVENTION_REQUIRED" ∧
    (synchronize ⟨3/10, false⟩ initialBalanceState "force act lead create").2 =
      computedState "force act lead create" ∧
    ((synchronize ⟨3/10, false⟩ initialBalanceState "force act lead create").1).resolved = false ∧
    (∀ (cfg2 : YinYangConfig) (st2 : BalanceState) (input2 : String),
      ((synchronize cfg2 st2 input2).1).resolved = true ↔
        ((synchronize cfg2 st2 input2).1).method ≠ "MANUAL_INTERVENTION_REQUIRED") :=
  synchronize_manual_intervention ⟨3/10, false⟩ initialBalanceState "force act lead create" rfl
    (by rw [balance_eval]; norm_num)

theorem failsafe_recommendations_eval :
    ((synchronize ⟨3/10, true⟩ initialBalanceState "force act lead create").1).recommendations =
      ["Fail-safe gate activated for emergency balancing"] := by
  have hb : calculate_balance ((1:ℚ)/5) 1 = 1/5 := by
    rw [calculate_balance_eq_of_mem (by norm_num) (by norm_num) (by norm_num) (by norm_num)]
    rw [abs_of_nonpos (by norm_num)]
    norm_num
  unfold synchronize
  norm_num [yin_score_eval, yang_score_eval, hb, activate_failsafe]

/-- C6 counterexample: on input "force act lead create" with the default
configuration, the computed yin score is below 0.4 and the computed yang
score is above 0.6, yet the fail-safe branch is taken and the result's
recommendations do NOT include the increase-Yin advisory — the advisory
check runs on the state after the fail-safe has reset yin and yang to their
common average, so it is not independent of the branch taken. -/
theorem advisory_not_emitted_after_failsafe :
    calculate_yin_score "force act lead create" < 4/10 ∧
    calculate_yang_score "force act lead create" > 6/10 ∧
    "Increase Yin (receptive, nurturing) elements" ∉
      ((synchronize ⟨3/10, true⟩ initialBalanceState "force act lead create").1).recommendations := by
  refine ⟨by rw [yin_score_eval]; norm_num, by rw [yang_score_eval]; norm_num, ?_⟩
  rw [failsafe_recommendations_eval]
  decide

/-- C6 (amended): for every `synchronize` call in which the computed yin
score is below 0.4 and the computed yang score is above 0.6, provided the
fail-safe branch is not taken (fail-safe disabled, or the computed balance
meets the threshold), the result's recommendations include the advice to
increase the receptive (Yin) elements.  On the fail-safe branch the advisory
check sees the corrected state, whose yin and yang are equal, so the
advisory never fires there. -/
theorem advisory_increase_yin (cfg : YinYangConfig) (st : BalanceState) (input : String)
    (hyin : calculate_yin_score input < 4/10)
    (hyang : calculate_yang_score input > 6/10)
    (hbranch : cfg.failsafe_enabled = false ∨
      calculate_balance (calculate_yin_score input) (calculate_yang_score input) ≥
        cfg.balance_threshold) :
    "Increase Yin (receptive, nurturing) elements" ∈
      ((synchronize cfg st input).1).recommendations := by
  unfold synchronize
  by_cases h : calculate_balance (calculate_yin_score input) (calculate_yang_score input) ≥
      cfg.balance_threshold
  · simp [h, hyin, hyang]
  · rcases hbranch with hf | hb
    · simp [h, hf, hyin, hyang]
    · exact absurd hb h

/-- Witness for the amended C6 at a concrete call (fail-safe disabled). -/
theorem advisory_increase_yin_witness :
    "Increase Yin (receptive, nurturing) elements" ∈
      ((synchronize ⟨3/10, false⟩ initialBalanceState "force act lead create").1).recommendations :=
  advisory_increase_yin ⟨3/10, false⟩ initialBalanceState "force act lead create"
    (by rw [yin_score_eval]; norm_num) (by rw [yang_score_eval]; norm_num) (Or.inl rfl)

/-- C7: `reset()` on the balance synchronizer, called in any state
whatsoever (in particular in any state reached by `synchronize`), restores
exactly the initial state `{yin: 0.5, yang: 0.5, balance: 1.0}`. -/
theorem reset_restores_initial (st : BalanceState) :
    reset st = initialBalanceState ∧
    (∀ cfg input, reset ((synchronize cfg st input).2) = initialBalanceState) :=
  ⟨rfl, fun _ _ => rfl⟩

/-- C3: the policy gate's `evaluate_action` approves `"read_data"` with an
empty context, rejects `"delete_all_data"` with an empty context, approves
`"delete_item"` under the seedbringer flag regardless of denylist keywords;
in general any context setting `authorized` or `seedbringer` is approved
immediately, and otherwise approval holds iff the action contains no
denylist keyword — all under the hypothesis that the gate's balance score
meets its threshold. -/
theorem policy_gate_evaluate (g : LoveFirstTrigger)
    (hth : g.balance_score ≥ g.fail_safe_threshold) :
    evaluate_action g "read_data" ⟨false, false⟩ = true ∧
    evaluate_action g "delete_all_data" ⟨false, false⟩ = false ∧
    evaluate_action g "delete_item" ⟨false, true⟩ = true ∧
    (∀ (action : String) (ctx : PGContext),
      (ctx.authorized = true ∨ ctx.seedbringer = true) →
        evaluate_action g action ctx = true) ∧
    (∀ (action : String) (ctx : PGContext),
      ctx.authorized = false → ctx.seedbringer = false →
        (evaluate_action g action ctx = true ↔
          ∀ kw ∈ harmful_keywords, hasKw action kw = false)) := by
  have hd : decide (g.balance_score ≥ g.fail_safe_threshold) = true := decide_eq_true hth
  refine ⟨?_, ?_, ?_, ?_, ?_⟩
  · rw [evaluate_action, hd, show compassion_check "read_data" ⟨false, false⟩ = true from by decide]
    rfl
  · rw [evaluate_action,
      show compassion_check "delete_all_data" ⟨false, false⟩ = false from by decide]
    rfl
  · rw [evaluate_action, hd, show compassion_check "delete_item" ⟨false, true⟩ = true from by decide]
    rfl
  · intro action ctx hesc
    rw [evaluate_action, hd]
    unfold compassion_check
    rcases hesc with ha | hs
    · simp [ha]
    · simp [hs]
  · intro action ctx ha hs
    rw [evaluate_action, hd]
    unfold compassion_check
    simp [ha, hs, List.any_eq_false]

/-- Witness for C3 at the default gate state (balance score 1.0,
threshold 0.7). -/
theorem policy_gate_evaluate_witness :
    evaluate_action ⟨1, 7/10⟩ "read_data" ⟨false, false⟩ = true ∧
    evaluate_action ⟨1, 7/10⟩ "delete_all_data" ⟨false, false⟩ = false ∧
    evaluate_action ⟨1, 7/10⟩ "delete_item" ⟨false, true⟩ = true :=
  have h := policy_gate_evaluate ⟨1, 7/10⟩ (by norm_num)
  ⟨h.1, h.2.1, h.2.2.1⟩

/-- C10: `SoftsenseCore.sense` returns the same result and leaves the same
metrics whether the instance was constructed with `auto_balance = True` or
`auto_balance = False`: the auto-balance correction step performs no state
change (it only emits console output), so the flag never influences any
observable value. -/
theorem sense_independent_of_auto_balance (balance_threshold : ℚ) (metrics : Harmonics)
    (input : String) :
    sense balance_threshold true metrics input = sense balance_threshold false metrics input := by
  unfold sense auto_balance
  simp

end Softsense

namespace Sentimento

/-- C8: for every pulse, `receive_pulse` returns the event record containing
the given fields and the timestamp even when persisting the pulse to the
per-day log file fails: the return value is the same whether or not the
persistence step fails, so the persistence error never propagates to the
caller. -/
theorem receive_pulse_returns_event (emotion : String) (intensity : ℚ)
    (clarity note ts pulse_key : String) (day_log : LogStore) (persist_fails : Bool) :
    (receive_pulse emotion intensity clarity note ts pulse_key day_log persist_fails).1 =
      ⟨ts, emotion, intensity, clarity, note⟩ ∧
    (receive_pulse emotion intensity clarity note ts pulse_key day_log true).1 =
      (receive_pulse emotion intensity clarity note ts pulse_key day_log false).1 := by
  unfold receive_pulse
  by_cases h : persist_fails <;> simp [h]

/-- C9 counterexample: a pulse with intensity 1.5 is recorded and returned
with intensity 1.5 — outside [0,1] — so the logger does not clamp the
intensity. -/
theorem intensity_not_clamped :
    (receive_pulse "joy" (3/2) "high" "" "t0" "pulse_0" [] false).1.intensity = 3/2 ∧
    ¬ (receive_pulse "joy" (3/2) "high" "" "t0" "pulse_0" [] false).1.intensity ≤ 1 := by
  refine ⟨rfl, ?_⟩
  show ¬ (3/2 : ℚ) ≤ 1
  norm_num

/-- C9 (amended): a pulse whose intensity lies outside [0,1] is not
rejected, but it is not clamped either — the intensity stored in and
returned with the event record is exactly the numeric intensity given,
whether or not it lies within [0,1]. -/
theorem intensity_passed_through (emotion : String) (intensity : ℚ)
    (clarity note ts pulse_key : String) (day_log : LogStore) (persist_fails : Bool) :
    (receive_pulse emotion intensity clarity note ts pulse_key day_log persist_fails).1.intensity =
      intensity := by
  unfold receive_pulse
  by_cases h : persist_fails <;> simp [h]

end Sentimento
